import Mathlib

/-!
# Verification of the `neo4j-utils` driver layer

A shallow embedding of `neo4j_utils/_driver.py` (class `Driver`) together
with the helpers it uses from `neo4j_utils/_misc.py`.  Python dictionaries
holding configuration values are modelled as association lists of
`String × Value`; the query executor is modelled as a pure state-passing
function parameterised by a *behaviour* oracle standing for the external
Neo4j server (the `neo4j` package is an external collaborator: a session
receives a command text and either returns rows plus a summary or raises
an error).  Every attempt that opens a session and dispatches a command is
recorded in a trace, so that claims about "network calls" become claims
about the trace.
-/

namespace Neo4jUtils

/-- Does `needle` occur at the head of `hay`? -/
def leadsWith : List Char → List Char → Bool
  | [], _ => true
  | _ :: _, [] => false
  | c :: ns, h :: hs => c = h && leadsWith ns hs

/-- Does `needle` occur anywhere in `hay`? -/
def charsContain (hay needle : List Char) : Bool :=
  match hay with
  | [] => leadsWith needle []
  | _ :: rest => leadsWith needle hay || charsContain rest needle

/-- Python substring test `needle in hay`. -/
def containsSub (hay needle : String) : Bool :=
  charsContain hay.data needle.data

/-- Python `str.lower` on the ASCII strings used as config keys. -/
def asciiLowerChar (c : Char) : Char :=
  if 'A' ≤ c ∧ c ≤ 'Z' then Char.ofNat (c.toNat + 32) else c

/-- Python `str.lower` on ASCII strings. -/
def asciiLower (s : String) : String := ⟨s.data.map asciiLowerChar⟩

/-- Python `str.upper` on the ASCII schema keywords. -/
def asciiUpperChar (c : Char) : Char :=
  if 'a' ≤ c ∧ c ≤ 'z' then Char.ofNat (c.toNat - 32) else c

/-- Python `str.upper` on ASCII strings. -/
def asciiUpper (s : String) : String := ⟨s.data.map asciiUpperChar⟩

/-- A Python value as it occurs in the config dictionaries: `None`,
strings, integers, booleans and lists of strings (used for the fallback
database tuple and the fallback error-kind tuple). -/
inductive Value where
  | vnone
  | vstr (s : String)
  | vint (n : Int)
  | vbool (b : Bool)
  | vlist (l : List String)
deriving DecidableEq, Repr

/-- Python truthiness of a `Value` (`bool(v)`). -/
def Value.truthy : Value → Bool
  | .vnone => false
  | .vstr s => s ≠ ""
  | .vint n => n ≠ 0
  | .vbool b => b
  | .vlist l => l ≠ []

/-- A Python `dict` with string keys, as used for `Driver._db_config`. -/
abbrev ConfDict := List (String × Value)

/-- `d.get(k, None)`: a missing key and a stored `None` are both `vnone`. -/
def dict_get (d : ConfDict) (k : String) : Value :=
  match d with
  | [] => .vnone
  | (k', v) :: rest => if k' = k then v else dict_get rest k

/-- `d[k] = v`: replace the binding for `k` or append a new one. -/
def dict_set (d : ConfDict) (k : String) (v : Value) : ConfDict :=
  match d with
  | [] => [(k, v)]
  | (k', v') :: rest =>
      if k' = k then (k, v) :: rest else (k', v') :: dict_set rest k v

/-- `DEFAULT_CONFIG` from `_driver.py`. -/
def DEFAULT_CONFIG : ConfDict :=
  [ ("user", .vstr "neo4j"),
    ("passwd", .vstr "neo4j"),
    ("db", .vstr "neo4j"),
    ("uri", .vstr "neo4j://localhost:7687"),
    ("fetch_size", .vint 1000),
    ("raise_errors", .vbool false),
    ("fallback_db", .vlist ["system", "neo4j"]),
    ("fallback_on", .vlist ["TransientError"]) ]

namespace Driver

/-- The `config_key_synonyms` table in `Driver.read_config`. -/
def config_key_synonyms : List (String × String) :=
  [ ("password", "passwd"), ("pw", "passwd"),
    ("username", "user"), ("login", "user"),
    ("host", "uri"), ("address", "uri"), ("server", "uri"),
    ("graph", "db"), ("database", "db"), ("name", "db") ]

/-- `k = k.lower(); k = config_key_synonyms.get(k, k)`. -/
def normalize_key (k : String) : String :=
  let k := asciiLower k
  (config_key_synonyms.lookup k).getD k

/-- The merging loop of `Driver.read_config`: for each `(k, v)` of the
file, normalise the key and store `v` only when the current entry is
falsy (`if not self._db_config.get(k, None)`). -/
def read_config_merge (cfg : ConfDict) (conf : ConfDict) : ConfDict :=
  conf.foldl
    (fun cfg kv =>
      let k := normalize_key kv.1
      if !(dict_get cfg k).truthy then dict_set cfg k kv.2 else cfg)
    cfg

/-- `Driver._config_from_defaults`: each `DEFAULT_CONFIG` item is stored
only when the current entry `is None`. -/
def config_from_defaults (cfg : ConfDict) : ConfDict :=
  DEFAULT_CONFIG.foldl
    (fun cfg kv =>
      if dict_get cfg kv.1 = .vnone then dict_set cfg kv.1 kv.2 else cfg)
    cfg

/-- `Driver.read_config`, restricted to its pure part: merge the parsed
config file (when one was found) into `_db_config`, then populate missing
items from the defaults.  The file-system search for the config path is
I/O and out of scope; `conf` is the mapping obtained from the file. -/
def read_config (cfg : ConfDict) (conf : Option ConfDict) : ConfDict :=
  match conf with
  | some c => config_from_defaults (read_config_merge cfg c)
  | none => config_from_defaults cfg

end Driver

/-! ## Error classes

`Driver.query` catches `neo4j.exceptions.Neo4jError` and
`neo4j.exceptions.DriverError`; `Driver.match_error` compares an error's
class against a set of classes via `issubclass`.  A Python exception class
is modelled by its name together with the names of all its ancestor
classes (its MRO), which always include the class's own name. -/

/-- A Python exception class: its name and the names of all classes in
its method resolution order (including itself). -/
structure ExcClass where
  name : String
  ancestors : List String
deriving DecidableEq, Repr

/-- `issubclass(a, b)` over the modelled hierarchy. -/
def issubclass (a b : ExcClass) : Bool :=
  a.ancestors.contains b.name

/-- `neo4j.exceptions.TransientError` (a `Neo4jError`). -/
def TransientErrorCls : ExcClass :=
  ⟨"TransientError", ["TransientError", "DatabaseUnavailable", "Neo4jError", "Exception"]⟩

/-- `neo4j.exceptions.AuthError` (a `ClientError`, hence a `Neo4jError`). -/
def AuthErrorCls : ExcClass :=
  ⟨"AuthError", ["AuthError", "ClientError", "Neo4jError", "Exception"]⟩

/-- `neo4j.exceptions.ServiceUnavailable` (a `DriverError`). -/
def ServiceUnavailableCls : ExcClass :=
  ⟨"ServiceUnavailable", ["ServiceUnavailable", "DriverError", "Exception"]⟩

/-- Whether the `except (neo4j_exc.Neo4jError, neo4j_exc.DriverError)`
clause in `Driver.query` catches this error. -/
def caught_by_query (e : ExcClass) : Bool :=
  e.ancestors.contains "Neo4jError" || e.ancestors.contains "DriverError"

namespace Driver

/-- `Driver.match_error`: the error class is listed in `errors`, or it is
a subclass of one of the listed classes.  (In the source, strings are
first resolved to exception classes via `builtins`/`neo4j.exceptions`
attribute lookup; the model works directly with resolved classes.) -/
def match_error (error : ExcClass) (errors : List ExcClass) : Bool :=
  errors.contains error || errors.any (fun e => issubclass error e)

end Driver

/-! ## The query executor

`Driver.query` is modelled as a pure function over an explicit driver
state.  The external server is a behaviour oracle mapping the session
arguments, the command text and the bound parameters to an outcome.  The
`_misc.py` helpers `to_tuple`/`to_set`/`if_none` are reflected in the
`Option`-typed arguments: `none` stands for Python `None`, and the falsy
`or`-chains of the source are spelled out at each use site. -/

/-- What the server does with one dispatched command.  Rows and
summaries are opaque tokens handed back by the server. -/
inductive Outcome where
  | ok (rows summary : Nat)
  | err (e : ExcClass)
deriving DecidableEq, Repr

/-- Arguments of `neo4j.Driver.session` as built by `Driver.query`:
`database = none` means the `database` key was *absent* from
`session_args` (the `multi_db` falsy branch); `some d` means the key was
present with value `d` (itself possibly `None`). -/
structure SessionArgs where
  database : Option (Option String)
  fetch_size : Nat
  write_access : Bool
deriving DecidableEq, Repr

/-- The external server: session arguments, command text and bound
parameters determine the outcome. -/
abbrev Behavior := SessionArgs → String → ConfDict → Outcome

/-- The typed projection of `Driver._db_config` used by the executor. -/
structure DriverConfig where
  db : Option String
  fetch_size : Nat
  raise_errors : Bool
  fallback_db : List String
  fallback_on : List ExcClass
deriving DecidableEq, Repr

/-- The mutable state of a `Driver` object that `query` reads or writes:
the offline flag, the connection handle (`none` when no handle is held),
the config, the `_fallback_db`/`_fallback_on` context attributes set by
the `fallback()` context manager, the `multi_db` flag and the two
retained query records. -/
structure DriverState where
  offline : Bool
  driver : Option Nat
  config : DriverConfig
  fallback_db_ctx : Option (List String)
  fallback_on_ctx : Option (List ExcClass)
  multi_db : Bool
  last_query : Option (String × ConfDict)
  last_failed : Option (String × ConfDict)
deriving DecidableEq, Repr

/-- What one call of `Driver.query` produces: the returned pair (each
component `none` for Python `None`), the exception that propagated out of
the call (if any), the post-state, and the trace of dispatched attempts
(one entry per session opened and command sent). -/
structure QueryResult where
  rows : Option Nat
  summary : Option Nat
  raised : Option ExcClass
  state : DriverState
  trace : List (SessionArgs × String)
deriving DecidableEq, Repr

/-- Truthiness of `str | None`. -/
def truthyStr : Option String → Bool
  | some s => s ≠ ""
  | none => false

namespace Driver

/-- Lines 571–572 of `_driver.py`:
`if 'CREATE' not in query and 'SHOW DATABASES' not in query:
    db = db or self._db_config['db'] or neo4j.DEFAULT_DATABASE`
(`neo4j.DEFAULT_DATABASE` is `None`). -/
def resolve_db (query : String) (db : Option String) (configDb : Option String) :
    Option String :=
  if !containsSub query "CREATE" && !containsSub query "SHOW DATABASES" then
    if truthyStr db then db
    else if truthyStr configDb then configDb
    else none
  else db

/-- `fetch_size = fetch_size or self._db_config['fetch_size']`. -/
def resolve_fetch (fetch_size : Option Nat) (cfg : Nat) : Nat :=
  match fetch_size with
  | some n => if n ≠ 0 then n else cfg
  | none => cfg

/-- `raise_errors = self._db_config['raise_errors'] if raise_errors is
None else raise_errors`. -/
def resolve_raise (raise_errors : Option Bool) (cfg : Bool) : Bool :=
  raise_errors.getD cfg

/-- The `session_args` dict: with a truthy `multi_db` it has a
`database` key, otherwise not. -/
def mk_session_args (s : DriverState) (db : Option String) (fetch : Nat)
    (write : Bool) : SessionArgs :=
  if s.multi_db then ⟨some db, fetch, write⟩ else ⟨none, fetch, write⟩

/-- `fallback_db = fallback_db or getattr(self, '_fallback_db', ())`,
then `_misc.to_tuple` at the loop (`None` becomes the empty tuple). -/
def resolve_fallback_db (arg : Option (List String))
    (ctx : Option (List String)) : List String :=
  match arg with
  | some l => if l ≠ [] then l else ctx.getD []
  | none => ctx.getD []

/-- `Driver._get_fallback_on`:
`to_set(getattr(self, '_fallback_on', None) or self._db_config['fallback_on'])`. -/
def get_fallback_on (s : DriverState) : List ExcClass :=
  if (s.fallback_on_ctx.getD []) ≠ [] then s.fallback_on_ctx.getD []
  else s.config.fallback_on

/-- `fallback_on = to_set(if_none(fallback_on, self._get_fallback_on))`:
`if_none` falls through only on `None`, so an explicitly passed empty set
stays empty. -/
def resolve_fallback_on (arg : Option (List ExcClass)) (s : DriverState) :
    List ExcClass :=
  match arg with
  | some l => l
  | none => get_fallback_on s

/-- `Driver.go_offline`: set the offline flag and discard the connection
handle.  (The source also re-registers the `None` handle in the
`_drivers` registry and emits a log line; neither is observed by any
claim.) -/
def go_offline (s : DriverState) : DriverState :=
  { s with offline := true, driver := none }

/-- `Driver.query`, with explicit fuel for the recursive fallback retry.
The retry always passes `fallback_on = set()`, under which
`match_error` is `false`, so the real recursion depth never exceeds one;
fuel `2` therefore reproduces the source exactly (see
`queryF_fuel_ge_two`). -/
def queryF (fuel : Nat) (behavior : Behavior) (s : DriverState)
    (query : String) (db : Option String) (fetch_size : Option Nat)
    (write : Bool) (explain : Bool) (profile : Bool)
    (fallback_db : Option (List String)) (fallback_on : Option (List ExcClass))
    (raise_errors : Option Bool) (kwargs : ConfDict) : QueryResult :=
  match fuel with
  | 0 => ⟨none, none, some ⟨"FuelExhausted", []⟩, s, []⟩
  | fuel + 1 =>
    let query :=
      if explain then "EXPLAIN " ++ query
      else if profile then "PROFILE " ++ query
      else query
    if s.offline then
      ⟨none, none, none, s, []⟩
    else
      let db := resolve_db query db s.config.db
      let fetch := resolve_fetch fetch_size s.config.fetch_size
      let raise_e := resolve_raise raise_errors s.config.raise_errors
      let sargs := mk_session_args s db fetch write
      match behavior sargs query kwargs with
      | .ok rows summary =>
          ⟨some rows, some summary, none,
            { s with last_query := some (query, kwargs) }, [(sargs, query)]⟩
      | .err e =>
          if caught_by_query e then
            let fdbs := resolve_fallback_db fallback_db s.fallback_db_ctx
            let fons := resolve_fallback_on fallback_on s
            match
              (if match_error e fons then
                fdbs.find? (fun fdb => db ≠ some fdb)
              else none)
            with
            | some fdb =>
                let inner :=
                  queryF fuel behavior s query (some fdb) (some fetch)
                    write false false none (some []) (some raise_e) kwargs
                { inner with trace := (sargs, query) :: inner.trace }
            | none =>
                let s₁ := { s with last_failed := some (query, kwargs) }
                let s₂ := if e.name == "AuthError" then go_offline s₁ else s₁
                if raise_e then ⟨none, none, some e, s₂, [(sargs, query)]⟩
                else ⟨none, none, none, s₂, [(sargs, query)]⟩
          else
            ⟨none, none, some e, s, [(sargs, query)]⟩

/-- `Driver.query` proper: fuel `2` suffices since the fallback retry is
invoked with an empty trigger set and hence never recurses further. -/
def query (behavior : Behavior) (s : DriverState)
    (q : String) (db : Option String) (fetch_size : Option Nat)
    (write : Bool) (explain : Bool) (profile : Bool)
    (fallback_db : Option (List String)) (fallback_on : Option (List ExcClass))
    (raise_errors : Option Bool) (kwargs : ConfDict) : QueryResult :=
  queryF 2 behavior s q db fetch_size write explain profile
    fallback_db fallback_on raise_errors kwargs

end Driver

/-! ## Schema manager

`Driver._drop_indices` and `Driver._list_indices` open a session
*directly* (`with self.session() as s`) instead of going through
`Driver.query`.  `self.session(**kwargs)` evaluates
`self.driver.session(**kwargs)`, which raises `AttributeError` when
`self.driver` is `None` (offline mode); that exception is raised before
the `try` block and is not of the caught `neo4j` error types, so it
propagates.  The per-object drop commands and the introspection command
texts are modelled verbatim.  The cached server version enters through
its major component `int(self.neo4j_version.split('.')[0])`. -/

/-- A row returned by the schema introspection command: only its `name`
field is read. -/
structure SchemaRow where
  name : String
deriving DecidableEq, Repr

namespace Driver

/-- `Driver._idx_cstr_synonyms`: `None` models the `ValueError` branch. -/
def idx_cstr_synonyms (what : String) : Option String :=
  [("indexes", "INDEX"), ("indices", "INDEX"),
   ("constraints", "CONSTRAINT")].lookup what

/-- The introspection command dispatched by `_drop_indices`:
`SHOW {what}` for major version ≥ 5, `CALL db. {what}` otherwise. -/
def drop_indices_show_cmd (what : String) (major : Nat) : String :=
  if major ≥ 5 then "SHOW " ++ what else "CALL db. " ++ what

/-- One per-object drop command: `DROP {what_u} `{name}` IF EXISTS`. -/
def drop_cmd (what_u : String) (name : String) : String :=
  "DROP " ++ what_u ++ " `" ++ name ++ "` IF EXISTS"

/-- `Driver._drop_indices`, as the list of command texts it dispatches.
`listing` is the server's answer to the introspection command: `.ok rows`
or `.error ()` when it fails with a caught neo4j error (then the
exception handler logs and no drop command is dispatched).  The result is
`.error "AttributeError"` when no connection handle is held, mirroring
`None.session(...)`. -/
def drop_indices_run (driver : Option Nat) (what : String) (major : Nat)
    (listing : Except Unit (List SchemaRow)) : Except String (List String) :=
  match idx_cstr_synonyms what with
  | none => .error "ValueError"
  | some what_u =>
    match driver with
    | none => .error "AttributeError"
    | some _ =>
      match listing with
      | .error _ => .ok [drop_indices_show_cmd what major]
      | .ok rows =>
          .ok (drop_indices_show_cmd what major ::
            rows.map (fun r => drop_cmd what_u r.name))

/-- `Driver._list_indices`, as the command text it dispatches
(`SHOW {WHAT_U};`, with no version gate), or the Python error raised
before any dispatch. -/
def list_indices_run (driver : Option Nat) (what : String) :
    Except String String :=
  match idx_cstr_synonyms what with
  | none => .error "ValueError"
  | some what_u =>
    match driver with
    | none => .error "AttributeError"
    | some _ => .ok ("SHOW " ++ asciiUpper what_u ++ ";")

/-- `Driver.drop_indices_constraints`: for major ≥ 5 only
`drop_constraints()`; below 5 `drop_constraints()` then
`drop_indices()`.  `clist`/`ilist` are the servers' answers to the two
introspection commands. -/
def drop_indices_constraints_run (driver : Option Nat) (major : Nat)
    (clist ilist : Except Unit (List SchemaRow)) :
    Except String (List String) :=
  if major ≥ 5 then
    drop_indices_run driver "constraints" major clist
  else do
    let c ← drop_indices_run driver "constraints" major clist
    let i ← drop_indices_run driver "indexes" major ilist
    pure (c ++ i)

/-- `Driver.wipe_db`: run `MATCH (n) DETACH DELETE n;` through
`Driver.query` (with all-default arguments), then
`drop_indices_constraints`.  The result is the flat list of command
texts dispatched to the server, in dispatch order; if the schema-drop
phase raises before dispatching (offline), only the delete-phase
commands appear. -/
def wipe_db_cmds (behavior : Behavior) (s : DriverState) (major : Nat)
    (clist ilist : Except Unit (List SchemaRow)) : List String :=
  let q := query behavior s "MATCH (n) DETACH DELETE n;" none none
    true false false none none none []
  q.trace.map Prod.snd ++
    (match drop_indices_constraints_run q.state.driver major clist ilist with
     | .ok cmds => cmds
     | .error _ => [])

end Driver

/-! ## Connecting

`Driver.db_connect` reads the config when the essential parameters are
not all available, then — unless offline — constructs a driver handle
via `neo4j.GraphDatabase.driver(uri=self.uri, auth=self.auth)`.  That
constructor is lazy: it builds a handle from the URI and auth data
without contacting the server, so it is modelled by an `opener` oracle
that always yields a handle. -/

namespace Driver

/-- `Driver._connect_essential`. -/
def connect_essential : List String := ["uri", "user", "passwd"]

/-- `Driver._connect_param_available`: all essential entries truthy. -/
def connect_param_available (cfg : ConfDict) : Bool :=
  connect_essential.all (fun k => (dict_get cfg k).truthy)

/-- The `Driver.uri` property:
`self._db_config.get('uri', 0) or DEFAULT_CONFIG['uri']`. -/
def uri_prop (cfg : ConfDict) : Value :=
  if (dict_get cfg "uri").truthy then dict_get cfg "uri"
  else .vstr "neo4j://localhost:7687"

/-- The `Driver.auth` property: a truthy two-element `auth` entry wins,
otherwise `(user or default, passwd or default)`. -/
def auth_prop (cfg : ConfDict) : Value × Value :=
  match dict_get cfg "auth" with
  | .vlist [u, p] => (.vstr u, .vstr p)
  | _ =>
    ( (if (dict_get cfg "user").truthy then dict_get cfg "user"
       else .vstr "neo4j"),
      (if (dict_get cfg "passwd").truthy then dict_get cfg "passwd"
       else .vstr "neo4j") )

/-- The outcome of `Driver.db_connect`: the resolved config dict, the
created handle (or `none` in offline mode) and the offline flag. -/
structure ConnectResult where
  cfg : ConfDict
  driver : Option Nat
  offlineFlag : Bool
deriving DecidableEq, Repr

/-- `Driver.db_connect`: read the config when essentials are missing,
then create the handle unless offline.  `opener` stands for the lazy
`neo4j.GraphDatabase.driver` constructor; `conf` is the parsed config
file, if any exists on disk. -/
def db_connect (opener : Value → Value × Value → Nat) (cfg : ConfDict)
    (conf : Option ConfDict) (offline : Bool) : ConnectResult :=
  let cfg := if !connect_param_available cfg then read_config cfg conf else cfg
  if offline then ⟨cfg, none, offline⟩
  else ⟨cfg, some (opener (uri_prop cfg) (auth_prop cfg)), offline⟩

end Driver

/-! ## Concrete instances used in counterexamples and witnesses -/

/-- A connected driver state: configured database `primary`, default
fetch size, errors not raised, the default trigger set, `multi_db`
enabled so that session arguments carry the target database. -/
def stPrimary : DriverState :=
  { offline := false, driver := some 1,
    config := { db := some "primary", fetch_size := 1000,
                raise_errors := false, fallback_db := [],
                fallback_on := [TransientErrorCls] },
    fallback_db_ctx := none, fallback_on_ctx := none,
    multi_db := true, last_query := none, last_failed := none }

/-- A server on which the primary database and fallback `A` fail with a
transient (trigger-matching) error while fallback `B` would succeed. -/
def behFallback : Behavior := fun sa _ _ =>
  if sa.database = some (some "B") then .ok 7 8 else .err TransientErrorCls

/-- The run of `query` against `stPrimary`/`behFallback` with the
2-element fallback list `[A, B]`. -/
def resFallback : QueryResult :=
  Driver.query behFallback stPrimary "MATCH (n) RETURN n" none none
    true false false (some ["A", "B"]) none none []

/-- A driver state in offline mode: no handle held. -/
def stOffline : DriverState :=
  { offline := true, driver := none,
    config := { db := some "neo4j", fetch_size := 1000,
                raise_errors := false, fallback_db := ["system", "neo4j"],
                fallback_on := [TransientErrorCls] },
    fallback_db_ctx := none, fallback_on_ctx := none,
    multi_db := false, last_query := none, last_failed := none }

/-- A connected driver state with the default configuration. -/
def stDefault : DriverState :=
  { offline := false, driver := some 1,
    config := { db := some "neo4j", fetch_size := 1000,
                raise_errors := false, fallback_db := ["system", "neo4j"],
                fallback_on := [TransientErrorCls] },
    fallback_db_ctx := none, fallback_on_ctx := none,
    multi_db := true, last_query := none, last_failed := none }

/-- `stDefault` with `multi_db` unset (the constructor default). -/
def stSingleDb : DriverState :=
  { stDefault with multi_db := false }

/-- A server that accepts everything. -/
def behOk : Behavior := fun _ _ _ => .ok 5 6

/-- A server that always rejects the credentials. -/
def behAuthFail : Behavior := fun _ _ _ => .err AuthErrorCls

/-- The `_db_config` dict as `__init__` builds it when the caller passes
`raise_errors=False` explicitly and nothing else (`fetch_size` has the
non-`None` constructor default `1000`). -/
def cfgExplicitRaiseFalse : ConfDict :=
  [ ("uri", .vnone), ("user", .vnone), ("passwd", .vnone), ("db", .vnone),
    ("fetch_size", .vint 1000), ("raise_errors", .vbool false),
    ("fallback_db", .vnone), ("fallback_on", .vnone) ]

/-- The `_db_config` dict as `__init__` builds it when the caller passes
no connection parameter at all. -/
def cfgNoArgs : ConfDict :=
  [ ("uri", .vnone), ("user", .vnone), ("passwd", .vnone), ("db", .vnone),
    ("fetch_size", .vint 1000), ("raise_errors", .vnone),
    ("fallback_db", .vnone), ("fallback_on", .vnone) ]

/-- The outcome of `db_connect` on `cfgNoArgs` with no config file on
disk and a handle constructor that yields handle `1`. -/
def connectedNoArgs : Driver.ConnectResult :=
  Driver.db_connect (fun _ _ => 1) cfgNoArgs none false

/-- The driver state after `db_connect` on `cfgNoArgs` resolved
everything to the built-in defaults. -/
def stAfterDefaultConnect : DriverState :=
  { offline := false, driver := connectedNoArgs.driver,
    config := { db := some "neo4j", fetch_size := 1000,
                raise_errors := false, fallback_db := ["system", "neo4j"],
                fallback_on := [TransientErrorCls] },
    fallback_db_ctx := none, fallback_on_ctx := none,
    multi_db := false, last_query := none, last_failed := none }

/-! ## Supporting lemmas -/

theorem dict_get_set (d : ConfDict) (k k' : String) (v : Value) :
    dict_get (dict_set d k v) k' = if k = k' then v else dict_get d k' := by
  induction d with
  | nil =>
      by_cases h : k = k' <;> simp [dict_set, dict_get, h]
  | cons kv rest ih =>
      obtain ⟨k₀, v₀⟩ := kv
      by_cases h0 : k₀ = k
      · subst h0
        by_cases h : k₀ = k' <;> simp [dict_set, dict_get, h]
      · simp only [dict_set, if_neg h0]
        by_cases h' : k₀ = k'
        · subst h'
          have hne : ¬k = k₀ := fun he => h0 he.symm
          simp [dict_get, if_neg hne, ih, hne]
        · simp [dict_get, h', ih]

/-- The merging loop of `read_config` never replaces a truthy entry. -/
theorem read_config_merge_preserves_truthy (conf : ConfDict) (cfg : ConfDict)
    (k : String) (h : (dict_get cfg k).truthy = true) :
    dict_get (Driver.read_config_merge cfg conf) k = dict_get cfg k := by
  induction conf generalizing cfg with
  | nil => simp [Driver.read_config_merge]
  | cons kv rest ih =>
      simp only [Driver.read_config_merge, List.foldl] at *
      by_cases hc : (dict_get cfg (Driver.normalize_key kv.1)).truthy = true
      · simp only [hc, Bool.not_true, Bool.false_eq_true, if_false]
        exact ih cfg h
      · simp only [Bool.not_eq_true] at hc
        simp only [hc, Bool.not_false, if_true]
        have hne : Driver.normalize_key kv.1 ≠ k := by
          intro heq; rw [heq] at hc; rw [h] at hc; cases hc
        have hget : dict_get (dict_set cfg (Driver.normalize_key kv.1) kv.2) k
            = dict_get cfg k := by
          rw [dict_get_set, if_neg hne]
        rw [ih _ (by rw [hget]; exact h), hget]

/-- Filling missing entries from a defaults table: the resulting entry is
the default exactly when the entry was `None`, provided no default value
is itself `None`. -/
theorem defaults_fold_get (ds : ConfDict) (cfg : ConfDict) (k : String)
    (hnn : ∀ kv ∈ ds, kv.2 ≠ Value.vnone) :
    dict_get
      (ds.foldl
        (fun c kv =>
          if dict_get c kv.1 = .vnone then dict_set c kv.1 kv.2 else c)
        cfg) k =
      if dict_get cfg k = .vnone then dict_get ds k else dict_get cfg k := by
  induction ds generalizing cfg with
  | nil =>
      by_cases h : dict_get cfg k = Value.vnone <;> simp [h, dict_get]
  | cons kv rest ih =>
      obtain ⟨k₀, v₀⟩ := kv
      have hv : v₀ ≠ Value.vnone := hnn (k₀, v₀) (List.mem_cons_self _ _)
      have hrest : ∀ kv ∈ rest, kv.2 ≠ Value.vnone := by
        intro x hx; exact hnn x (List.mem_cons_of_mem _ hx)
      simp only [List.foldl]
      by_cases h0 : k₀ = k
      · subst h0
        by_cases hn : dict_get cfg k₀ = Value.vnone
        · simp only [hn, if_true]
          rw [ih _ hrest]
          have hset : dict_get (dict_set cfg k₀ v₀) k₀ = v₀ := by
            rw [dict_get_set, if_pos rfl]
          rw [hset, if_neg hv]
          simp [dict_get]
        · simp only [hn, if_false]
          rw [ih _ hrest, if_neg hn]
      · have hlk : dict_get ((k₀, v₀) :: rest) k = dict_get rest k := by
          simp [dict_get, h0]
        by_cases hn : dict_get cfg k₀ = Value.vnone
        · simp only [hn, if_true]
          rw [ih _ hrest]
          rw [dict_get_set, if_neg h0, hlk]
        · simp only [hn, if_false]
          rw [ih _ hrest, hlk]

/-- `_config_from_defaults` resolves each entry to the stored value when
present, and to the built-in default when the entry is `None`. -/
theorem config_from_defaults_get (cfg : ConfDict) (k : String) :
    dict_get (Driver.config_from_defaults cfg) k =
      if dict_get cfg k = .vnone then dict_get DEFAULT_CONFIG k
      else dict_get cfg k :=
  defaults_fold_get DEFAULT_CONFIG cfg k (by decide)

theorem match_error_nil (e : ExcClass) : Driver.match_error e [] = false := by
  simp [Driver.match_error]

/-- The fallback retry is always invoked with an explicitly empty
trigger set, under which `match_error` is `false` and no further
recursion happens: with the empty trigger set, `queryF` does not depend
on the fuel as long as it is positive. -/
theorem queryF_empty_trigger_fuel (n : Nat) (behavior : Behavior)
    (s : DriverState) (q : String) (db : Option String) (fs : Option Nat)
    (w ex pr : Bool) (fdb : Option (List String)) (re : Option Bool)
    (kw : ConfDict) :
    Driver.queryF (n + 1) behavior s q db fs w ex pr fdb (some []) re kw =
      Driver.queryF 1 behavior s q db fs w ex pr fdb (some []) re kw := by
  simp only [Driver.queryF, Driver.resolve_fallback_on, match_error_nil,
    Bool.false_eq_true, if_false]

/-- Fuel `2` is exact: any larger fuel yields the same result as
`Driver.query` on every input, because the single possible retry carries
the empty trigger set. -/
theorem queryF_fuel_ge_two (n : Nat) (behavior : Behavior)
    (s : DriverState) (q : String) (db : Option String) (fs : Option Nat)
    (w ex pr : Bool) (fdb : Option (List String))
    (fon : Option (List ExcClass)) (re : Option Bool) (kw : ConfDict) :
    Driver.queryF (n + 2) behavior s q db fs w ex pr fdb fon re kw =
      Driver.query behavior s q db fs w ex pr fdb fon re kw := by
  simp only [Driver.query]
  conv =>
    lhs
    rw [Driver.queryF]
  conv =>
    rhs
    rw [Driver.queryF]
  simp only [queryF_empty_trigger_fuel]

/-- With `multi_db` unset, every attempt in the trace of `queryF` opens
its session without a `database` entry, for every fuel. -/
theorem queryF_trace_no_db_key (fuel : Nat) (behavior : Behavior)
    (s : DriverState) (q : String) (db : Option String) (fs : Option Nat)
    (w ex pr : Bool) (fdb : Option (List String))
    (fon : Option (List ExcClass)) (re : Option Bool) (kw : ConfDict)
    (h : s.multi_db = false) :
    ∀ a ∈ (Driver.queryF fuel behavior s q db fs w ex pr fdb fon re
      kw).trace, a.1.database = none := by
  induction fuel generalizing q db fs w ex pr fdb fon re kw with
  | zero => intro a ha; simp [Driver.queryF] at ha
  | succ n ih =>
      intro a ha
      simp only [Driver.queryF] at ha
      split at ha
      · simp at ha
      · split at ha
        · simp only [List.mem_singleton] at ha
          subst ha
          simp [Driver.mk_session_args, h]
        · split at ha
          · split at ha
            · simp only [List.mem_cons] at ha
              rcases ha with ha | ha
              · subst ha; simp [Driver.mk_session_args, h]
              · exact ih _ _ _ _ _ _ _ _ _ _ a ha
            · split at ha <;>
                · simp only [List.mem_singleton] at ha
                  subst ha
                  simp [Driver.mk_session_args, h]
          · simp only [List.mem_singleton] at ha
            subst ha
            simp [Driver.mk_session_args, h]

/-! ## Claim theorems -/

/-- C2: for every query text and parameter map, calling `query` while
the driver is in Offline mode returns `(None, None)`, opens no session
and dispatches nothing to the server (empty attempt trace), and leaves
the state unchanged. -/
theorem C2_offline_query_null (behavior : Behavior) (s : DriverState)
    (q : String) (db : Option String) (fs : Option Nat)
    (w ex pr : Bool) (fdb : Option (List String))
    (fon : Option (List ExcClass)) (re : Option Bool) (kw : ConfDict)
    (h : s.offline = true) :
    Driver.query behavior s q db fs w ex pr fdb fon re kw =
      ⟨none, none, none, s, []⟩ := by
  simp [Driver.query, Driver.queryF, h]

/-- Witness for C2 at a concrete offline state, query text and
parameter map. -/
theorem C2_offline_query_null_witness :
    stOffline.offline = true ∧
    Driver.query behOk stOffline "MATCH (n) RETURN COUNT(n) AS count;"
        none none true false false none none none [("limit", .vint 10)] =
      ⟨none, none, none, stOffline, []⟩ :=
  ⟨rfl, C2_offline_query_null behOk stOffline
    "MATCH (n) RETURN COUNT(n) AS count;" none none true false false
    none none none [("limit", .vint 10)] rfl⟩

/-- C5 counterexample: `_list_indices` takes no version into account at
all — even when the cached major version is 4 (where `_drop_indices`
does issue the legacy `CALL db. ...` text), listing dispatches the
declarative `SHOW CONSTRAINT;` text, which is not of the legacy
procedure-call form. -/
theorem C5_counterexample :
    Driver.list_indices_run (some 1) "constraints" = .ok "SHOW CONSTRAINT;" ∧
    containsSub "SHOW CONSTRAINT;" "CALL db." = false ∧
    Driver.drop_indices_show_cmd "constraints" 4 = "CALL db. constraints" :=
  ⟨rfl, by decide, rfl⟩

/-- C5 amended: the *dropping* path is version-gated — its introspection
command is `SHOW {what}` for major version ≥ 5 and `CALL db. {what}`
below 5 — while the *listing* path always dispatches the declarative
`SHOW {WHAT};` text, for every cached version. -/
theorem C5_amended (v : Nat) (what what_u : String) (d : Nat)
    (listing : Except Unit (List SchemaRow))
    (hw : Driver.idx_cstr_synonyms what = some what_u) :
    (∃ cmds, Driver.drop_indices_run (some d) what v listing = .ok cmds ∧
      cmds.head? =
        some (if v ≥ 5 then "SHOW " ++ what else "CALL db. " ++ what)) ∧
    Driver.list_indices_run (some d) what =
      .ok ("SHOW " ++ asciiUpper what_u ++ ";") := by
  constructor
  · cases listing with
    | error u =>
        refine ⟨[Driver.drop_indices_show_cmd what v], ?_, ?_⟩
        · simp [Driver.drop_indices_run, hw]
        · simp [Driver.drop_indices_show_cmd]
    | ok rows =>
        refine ⟨Driver.drop_indices_show_cmd what v ::
          rows.map (fun r => Driver.drop_cmd what_u r.name), ?_, ?_⟩
        · simp [Driver.drop_indices_run, hw]
        · simp [Driver.drop_indices_show_cmd]
  · simp [Driver.list_indices_run, hw]

/-- Witness for C5 amended at major version 4 and 5 over `indexes`. -/
theorem C5_amended_witness :
    Driver.idx_cstr_synonyms "indexes" = some "INDEX" ∧
    (∃ cmds,
      Driver.drop_indices_run (some 1) "indexes" 4 (.ok [⟨"i1"⟩]) = .ok cmds ∧
      cmds.head? = some (if 4 ≥ 5 then "SHOW " ++ "indexes"
        else "CALL db. " ++ "indexes")) ∧
    Driver.list_indices_run (some 1) "indexes" =
      .ok ("SHOW " ++ asciiUpper "INDEX" ++ ";") :=
  ⟨rfl, (C5_amended 4 "indexes" "INDEX" 1 (.ok [⟨"i1"⟩]) rfl).1,
    (C5_amended 4 "indexes" "INDEX" 1 (.ok [⟨"i1"⟩]) rfl).2⟩

/-- C8 counterexample: after `go_offline` no handle is held, and then
the schema operations do *not* complete as logging no-ops — both
`_drop_indices` and `_list_indices` evaluate `self.driver.session(...)`
on the `None` handle and raise `AttributeError` (which their
`except` clauses, which only catch neo4j error types, do not stop). -/
theorem C8_counterexample :
    (Driver.go_offline stDefault).offline = true ∧
    (Driver.go_offline stDefault).driver = none ∧
    Driver.drop_indices_run (Driver.go_offline stDefault).driver
        "constraints" 5 (.ok []) = .error "AttributeError" ∧
    Driver.list_indices_run (Driver.go_offline stDefault).driver
        "constraints" = .error "AttributeError" :=
  ⟨rfl, rfl, rfl, rfl⟩

/-- C8 amended: in Offline mode (offline flag set, no handle held), the
query-routed operations — query execution, counts, database management —
are logging no-ops returning `(None, None)` with no network attempt; the
schema listing and dropping operations, however, open a session directly
on the absent handle and raise `AttributeError` instead of no-op'ing. -/
theorem C8_amended (behavior : Behavior) (s : DriverState)
    (q : String) (db : Option String) (fs : Option Nat)
    (w ex pr : Bool) (fdb : Option (List String))
    (fon : Option (List ExcClass)) (re : Option Bool) (kw : ConfDict)
    (what what_u : String) (major : Nat)
    (listing : Except Unit (List SchemaRow))
    (hoff : s.offline = true) (hdrv : s.driver = none)
    (hw : Driver.idx_cstr_synonyms what = some what_u) :
    Driver.query behavior s q db fs w ex pr fdb fon re kw =
      ⟨none, none, none, s, []⟩ ∧
    Driver.drop_indices_run s.driver what major listing =
      .error "AttributeError" ∧
    Driver.list_indices_run s.driver what = .error "AttributeError" := by
  refine ⟨by simp [Driver.query, Driver.queryF, hoff], ?_, ?_⟩
  · simp [Driver.drop_indices_run, hdrv, hw]
  · simp [Driver.list_indices_run, hdrv, hw]

/-- C10: unless `multi_db` is truthy, `query` opens every session — for
the primary attempt and for any fallback retry — without a `database`
entry, so the resolved target name (including any fallback name chosen
during retry) is never transmitted and every query runs against the
driver's default database. -/
theorem C10_no_database_key (behavior : Behavior) (s : DriverState)
    (q : String) (db : Option String) (fs : Option Nat) (w ex pr : Bool)
    (fdb : Option (List String)) (fon : Option (List ExcClass))
    (re : Option Bool) (kw : ConfDict) (h : s.multi_db = false) :
    (Driver.query behavior s q db fs w ex pr fdb fon re kw).trace.map
        (fun a => a.1.database) =
      List.replicate
        (Driver.query behavior s q db fs w ex pr fdb fon re
          kw).trace.length none := by
  have hlen : (Driver.query behavior s q db fs w ex pr fdb fon re
      kw).trace.length =
      ((Driver.query behavior s q db fs w ex pr fdb fon re kw).trace.map
        (fun a => a.1.database)).length := by
    rw [List.length_map]
  rw [hlen]
  refine List.eq_replicate_length.mpr ?_
  intro b hb
  rcases List.mem_map.1 hb with ⟨a, ha, rfl⟩
  exact queryF_trace_no_db_key 2 behavior s q db fs w ex pr fdb fon re
    kw h a ha

/-- Witness for C10: a concrete run with `multi_db` unset in which a
fallback retry occurs — both dispatched sessions omit the `database`
entry even though the resolved targets were the configured name and the
fallback name. -/
theorem C10_no_database_key_witness :
    stSingleDb.multi_db = false ∧
    (Driver.query (fun _ _ _ => .err TransientErrorCls) stSingleDb
        "MATCH (n) RETURN n" none none true false false
        (some ["system"]) none none []).trace.length = 2 ∧
    (Driver.query (fun _ _ _ => .err TransientErrorCls) stSingleDb
        "MATCH (n) RETURN n" none none true false false
        (some ["system"]) none none []).trace.map
        (fun a => a.1.database) =
      List.replicate
        (Driver.query (fun _ _ _ => .err TransientErrorCls) stSingleDb
          "MATCH (n) RETURN n" none none true false false
          (some ["system"]) none none []).trace.length none :=
  ⟨rfl, by decide,
    C10_no_database_key (fun _ _ _ => .err TransientErrorCls) stSingleDb
      "MATCH (n) RETURN n" none none true false false
      (some ["system"]) none none [] rfl⟩

/-- C1 counterexample: primary (`primary`) and first fallback `A` fail
with a trigger-matching transient error and `B` would succeed, yet only
2 attempts occur (primary, then A) — the fallback loop returns on the
first candidate, so `B` is never attempted and the call terminates as
failed with `(None, None)`. -/
theorem C1_counterexample :
    resFallback.trace.length = 2 ∧
    resFallback.trace.map (fun a => a.1.database) =
      [some (some "primary"), some (some "A")] ∧
    behFallback ⟨some (some "B"), 1000, true⟩ "MATCH (n) RETURN n" [] =
      .ok 7 8 ∧
    Driver.match_error TransientErrorCls
      (Driver.get_fallback_on stPrimary) = true ∧
    resFallback.rows = none ∧ resFallback.summary = none ∧
    resFallback.raised = none := by
  decide

/-- C1 amended: with a 2-element fallback list `[A, B]`, when the
primary attempt fails with an error matching the trigger set, the
fallback loop returns on the *first* candidate different from the
current target, and that single retry carries an empty trigger set —
so exactly 2 attempts occur (primary, then A), `B` is never attempted
even though it would succeed, and the call terminates as failed. -/
theorem C1_amended (behavior : Behavior) (s : DriverState)
    (q dbP A B : String) (eP eA : ExcClass) (rB sB : Nat)
    (hoff : s.offline = false)
    (hcfg : s.config.db = some dbP) (hPne : dbP ≠ "")
    (hq1 : containsSub q "CREATE" = false)
    (hq2 : containsSub q "SHOW DATABASES" = false)
    (hA : A ≠ dbP) (hAne : A ≠ "")
    (hre : s.config.raise_errors = false)
    (hbP : behavior (Driver.mk_session_args s (some dbP)
      s.config.fetch_size true) q [] = .err eP)
    (hcP : caught_by_query eP = true)
    (hmP : Driver.match_error eP (Driver.get_fallback_on s) = true)
    (hbA : behavior (Driver.mk_session_args s (some A)
      s.config.fetch_size true) q [] = .err eA)
    (hcA : caught_by_query eA = true)
    (hnA : eA.name ≠ "AuthError")
    (_hbB : behavior (Driver.mk_session_args s (some B)
      s.config.fetch_size true) q [] = .ok rB sB) :
    (Driver.query behavior s q none none true false false
        (some [A, B]) none none []).trace =
      [(Driver.mk_session_args s (some dbP) s.config.fetch_size true, q),
       (Driver.mk_session_args s (some A) s.config.fetch_size true, q)] ∧
    (Driver.query behavior s q none none true false false
        (some [A, B]) none none []).rows = none ∧
    (Driver.query behavior s q none none true false false
        (some [A, B]) none none []).summary = none ∧
    (Driver.query behavior s q none none true false false
        (some [A, B]) none none []).raised = none := by
  have hres : Driver.resolve_db q none s.config.db = some dbP := by
    simp [Driver.resolve_db, hq1, hq2, truthyStr, hcfg, hPne]
  have hresA : Driver.resolve_db q (some A) s.config.db = some A := by
    simp [Driver.resolve_db, hq1, hq2, truthyStr, hAne]
  have hA' : ¬(dbP = A) := fun he => hA he.symm
  have hnamA : (eA.name == "AuthError") = false :=
    beq_eq_false_iff_ne.mpr hnA
  have hm0 : Driver.match_error eA [] = false := by
    simp [Driver.match_error]
  refine ⟨?_, ?_, ?_, ?_⟩ <;>
    simp [Driver.query, Driver.queryF, hoff, hres, hresA,
      Driver.resolve_fetch, Driver.resolve_raise, hre,
      Driver.resolve_fallback_db, Driver.resolve_fallback_on,
      hbP, hbA, hcP, hcA, hmP, hm0, hnamA,
      List.find?_cons, hA', ite_self, Option.getD_some, Option.getD_none]

/-- Witness for C1 amended at the concrete scenario of the
counterexample: primary `primary`, fallbacks `[A, B]`. -/
theorem C1_amended_witness :
    stPrimary.offline = false ∧
    resFallback.trace =
      [(Driver.mk_session_args stPrimary (some "primary")
          stPrimary.config.fetch_size true, "MATCH (n) RETURN n"),
       (Driver.mk_session_args stPrimary (some "A")
          stPrimary.config.fetch_size true, "MATCH (n) RETURN n")] ∧
    resFallback.rows = none :=
  ⟨rfl,
    (C1_amended behFallback stPrimary "MATCH (n) RETURN n" "primary"
      "A" "B" TransientErrorCls TransientErrorCls 7 8 rfl rfl
      (by decide) (by decide) (by decide) (by decide) (by decide) rfl
      (by decide) (by decide) (by decide) (by decide) (by decide)
      (by decide) (by decide)).1,
    (C1_amended behFallback stPrimary "MATCH (n) RETURN n" "primary"
      "A" "B" TransientErrorCls TransientErrorCls 7 8 rfl rfl
      (by decide) (by decide) (by decide) (by decide) (by decide) rfl
      (by decide) (by decide) (by decide) (by decide) (by decide)
      (by decide) (by decide)).2.1⟩

/-- C3: whenever query execution fails with an authentication error
(the server rejects the credentials on every session), the driver
transitions to Offline mode — the offline flag is set and the connection
handle is discarded — for *every* value of `raise_on_error`, including
when the error is not re-raised. -/
theorem C3_auth_failure_goes_offline (behavior : Behavior)
    (s : DriverState) (q : String) (db : Option String) (fs : Option Nat)
    (w ex pr : Bool) (fdb : Option (List String))
    (fon : Option (List ExcClass)) (re : Option Bool) (kw : ConfDict)
    (hoff : s.offline = false)
    (hb : ∀ sa q' kw', behavior sa q' kw' = .err AuthErrorCls) :
    (Driver.query behavior s q db fs w ex pr fdb fon re kw).state.offline
      = true ∧
    (Driver.query behavior s q db fs w ex pr fdb fon re kw).state.driver
      = none := by
  have hc : caught_by_query AuthErrorCls = true := by decide
  have hname : (AuthErrorCls.name == "AuthError") = true := by decide
  have hm0 : Driver.match_error AuthErrorCls [] = false := by decide
  constructor <;>
    · simp only [Driver.query, Driver.queryF, hoff, hb, hc,
        Driver.resolve_fallback_on, hm0, hname, Driver.go_offline,
        Bool.false_eq_true, if_false, if_true, ite_true, ite_false]
      split <;> split <;> simp

/-- Witness for C3: a concrete online state and an auth-rejecting
server; the driver ends offline with no handle although
`raise_errors` resolves to `false`. -/
theorem C3_auth_failure_goes_offline_witness :
    stDefault.offline = false ∧
    (Driver.query behAuthFail stDefault "MATCH (n) RETURN n" none none
        true false false none none (some false) []).state.offline =
      true ∧
    (Driver.query behAuthFail stDefault "MATCH (n) RETURN n" none none
        true false false none none (some false) []).state.driver =
      none :=
  ⟨rfl,
    (C3_auth_failure_goes_offline behAuthFail stDefault
      "MATCH (n) RETURN n" none none true false false none none
      (some false) [] rfl (fun _ _ _ => rfl)).1,
    (C3_auth_failure_goes_offline behAuthFail stDefault
      "MATCH (n) RETURN n" none none true false false none none
      (some false) [] rfl (fun _ _ _ => rfl)).2⟩

/-- C4 counterexample: the file-merge guard is a *falsiness* check, not
a missingness check — an explicitly supplied constructor argument
`raise_errors=False` (non-missing, stored as `False`) is overwritten by
a config-file value `raise_errors: true`. -/
theorem C4_counterexample :
    dict_get cfgExplicitRaiseFalse "raise_errors" = .vbool false ∧
    dict_get (Driver.read_config cfgExplicitRaiseFalse
        (some [("raise_errors", .vbool true)])) "raise_errors" =
      .vbool true := by
  decide

/-- C4 amended: a *truthy* explicit constructor argument is never
overwritten by a config-file value (a present-but-falsy argument such as
`False`, `0` or `''` can be); a non-null field — in particular one
populated from the config file — is never overwritten by a built-in
default; and a file key `host` populates the `uri` field whenever `uri`
is not already truthy. -/
theorem C4_amended (cfg conf : ConfDict) (k : String) (v : Value) :
    ((dict_get cfg k).truthy = true →
      dict_get (Driver.read_config cfg (some conf)) k = dict_get cfg k) ∧
    (dict_get cfg k ≠ .vnone →
      dict_get (Driver.config_from_defaults cfg) k = dict_get cfg k) ∧
    ((dict_get cfg "uri").truthy = false →
      dict_get (Driver.read_config_merge cfg [("host", v)]) "uri" = v) := by
  refine ⟨?_, ?_, ?_⟩
  · intro ht
    have hmerge : dict_get (Driver.read_config_merge cfg conf) k
        = dict_get cfg k :=
      read_config_merge_preserves_truthy conf cfg k ht
    have hnn : dict_get (Driver.read_config_merge cfg conf) k ≠ .vnone := by
      rw [hmerge]; intro he; rw [he] at ht; exact Bool.false_ne_true ht
    simp only [Driver.read_config]
    rw [config_from_defaults_get, if_neg hnn, hmerge]
  · intro hne
    rw [config_from_defaults_get, if_neg hne]
  · intro hf
    have hk : Driver.normalize_key "host" = "uri" := by decide
    simp only [Driver.read_config_merge, List.foldl, hk, hf,
      Bool.not_false, if_true]
    rw [dict_get_set, if_pos rfl]

/-- Witness for C4 amended: a truthy explicit `uri` survives a config
file that tries to override it, a file-populated `user` survives the
defaults, and a file `host` key lands in `uri`. -/
theorem C4_amended_witness :
    (dict_get [("uri", Value.vstr "bolt://h:7687")] "uri").truthy = true ∧
    dict_get (Driver.read_config [("uri", Value.vstr "bolt://h:7687")]
        (some [("uri", Value.vstr "neo4j://other:7687")])) "uri" =
      dict_get [("uri", Value.vstr "bolt://h:7687")] "uri" ∧
    dict_get [("user", Value.vstr "alice")] "user" ≠ Value.vnone ∧
    dict_get (Driver.config_from_defaults [("user", Value.vstr "alice")])
        "user" = dict_get [("user", Value.vstr "alice")] "user" ∧
    (dict_get ([] : ConfDict) "uri").truthy = false ∧
    dict_get (Driver.read_config_merge []
        [("host", Value.vstr "neo4j://h2:7687")]) "uri" =
      Value.vstr "neo4j://h2:7687" :=
  ⟨rfl,
    (C4_amended [("uri", Value.vstr "bolt://h:7687")]
      [("uri", Value.vstr "neo4j://other:7687")] "uri"
      (Value.vstr "x")).1 rfl,
    by decide,
    (C4_amended [("user", Value.vstr "alice")] [] "user"
      (Value.vstr "x")).2.1 (by decide),
    rfl,
    (C4_amended [] [] "uri" (Value.vstr "neo4j://h2:7687")).2.2 rfl⟩

/-- C6: in every invocation of `wipe_db` (against a working server), the
detach-delete-all-nodes query is dispatched first, before any
schema-drop command; constraints are always dropped; and indices are
additionally dropped explicitly exactly when the cached major version is
below 5. -/
theorem C6_wipe_order (behavior : Behavior) (s : DriverState)
    (major : Nat) (cl il : List SchemaRow) (d r m : Nat)
    (hoff : s.offline = false) (hdrv : s.driver = some d)
    (hb : ∀ sa q' kw', behavior sa q' kw' = .ok r m) :
    Driver.wipe_db_cmds behavior s major (.ok cl) (.ok il) =
      "MATCH (n) DETACH DELETE n;" ::
        ((Driver.drop_indices_show_cmd "constraints" major ::
          cl.map (fun x => Driver.drop_cmd "CONSTRAINT" x.name)) ++
        (if major < 5 then
          Driver.drop_indices_show_cmd "indexes" major ::
            il.map (fun x => Driver.drop_cmd "INDEX" x.name)
         else [])) := by
  rcases Nat.lt_or_ge major 5 with hv | hv
  · have h5 : ¬5 ≤ major := Nat.not_le_of_lt hv
    simp [Driver.wipe_db_cmds, Driver.query, Driver.queryF, hoff, hb,
      hdrv, Driver.drop_indices_constraints_run, Driver.drop_indices_run,
      Driver.idx_cstr_synonyms, List.lookup, bind, Except.bind, pure,
      Except.pure, hv, h5]
  · have h5 : ¬major < 5 := Nat.not_lt.mpr hv
    simp [Driver.wipe_db_cmds, Driver.query, Driver.queryF, hoff, hb,
      hdrv, Driver.drop_indices_constraints_run, Driver.drop_indices_run,
      Driver.idx_cstr_synonyms, List.lookup, bind, Except.bind, pure,
      Except.pure, hv, h5]

/-- Witness for C6 at major versions 4 and 5 with one constraint and
one index present. -/
theorem C6_wipe_order_witness :
    stDefault.offline = false ∧ stDefault.driver = some 1 ∧
    Driver.wipe_db_cmds behOk stDefault 4 (.ok [⟨"c1"⟩]) (.ok [⟨"i1"⟩]) =
      "MATCH (n) DETACH DELETE n;" ::
        ((Driver.drop_indices_show_cmd "constraints" 4 ::
          [⟨"c1"⟩].map (fun x : SchemaRow =>
            Driver.drop_cmd "CONSTRAINT" x.name)) ++
        (if 4 < 5 then
          Driver.drop_indices_show_cmd "indexes" 4 ::
            [⟨"i1"⟩].map (fun x : SchemaRow =>
              Driver.drop_cmd "INDEX" x.name)
         else [])) ∧
    Driver.wipe_db_cmds behOk stDefault 5 (.ok [⟨"c1"⟩]) (.ok [⟨"i1"⟩]) =
      "MATCH (n) DETACH DELETE n;" ::
        ((Driver.drop_indices_show_cmd "constraints" 5 ::
          [⟨"c1"⟩].map (fun x : SchemaRow =>
            Driver.drop_cmd "CONSTRAINT" x.name)) ++
        (if 5 < 5 then
          Driver.drop_indices_show_cmd "indexes" 5 ::
            [⟨"i1"⟩].map (fun x : SchemaRow =>
              Driver.drop_cmd "INDEX" x.name)
         else [])) :=
  ⟨rfl, rfl,
    C6_wipe_order behOk stDefault 4 [⟨"c1"⟩] [⟨"i1"⟩] 1 5 6 rfl rfl
      (fun _ _ _ => rfl),
    C6_wipe_order behOk stDefault 5 [⟨"c1"⟩] [⟨"i1"⟩] 1 5 6 rfl rfl
      (fun _ _ _ => rfl)⟩

/-- C7: with no explicit target database argument, a query text
containing a database-management marker (`CREATE` or `SHOW DATABASES`)
leaves the target unset (server default), while any other query text
resolves the target to the configured database name; and the session of
the dispatched attempt carries exactly this resolved target (shown with
`multi_db` set, where the target is transmitted). -/
theorem C7_target_db_resolution (q : String) (cfgdb : Option String)
    (n : String) (behavior : Behavior) (s : DriverState) (r m : Nat)
    (hn : n ≠ "")
    (hoff : s.offline = false) (hmdb : s.multi_db = true)
    (hb : ∀ sa q' kw', behavior sa q' kw' = .ok r m) :
    (containsSub q "CREATE" = true ∨ containsSub q "SHOW DATABASES" = true →
      Driver.resolve_db q none cfgdb = none) ∧
    (containsSub q "CREATE" = false → containsSub q "SHOW DATABASES" = false →
      Driver.resolve_db q none (some n) = some n) ∧
    (Driver.query behavior s q none none true false false
        none none none []).trace.map (fun a => a.1.database) =
      [some (Driver.resolve_db q none s.config.db)] := by
  refine ⟨?_, ?_, ?_⟩
  · intro h
    rcases h with h | h <;> simp [Driver.resolve_db, h]
  · intro h1 h2
    simp [Driver.resolve_db, h1, h2, truthyStr, hn]
  · simp [Driver.query, Driver.queryF, hoff, hb,
      Driver.mk_session_args, hmdb]

/-- Witness for C7 on concrete texts: `CREATE DATABASE` leaves the
target unset and a plain `MATCH` query targets the configured name;
the dispatched session carries the resolved target. -/
theorem C7_target_db_resolution_witness :
    (containsSub "CREATE DATABASE x " "CREATE" = true →
      Driver.resolve_db "CREATE DATABASE x " none (some "neo4j") = none) ∧
    (containsSub "MATCH (n) RETURN n" "CREATE" = false →
      containsSub "MATCH (n) RETURN n" "SHOW DATABASES" = false →
      Driver.resolve_db "MATCH (n) RETURN n" none (some "neo4j") =
        some "neo4j") ∧
    (Driver.query behOk stDefault "MATCH (n) RETURN n" none none
        true false false none none none []).trace.map
        (fun a => a.1.database) =
      [some (Driver.resolve_db "MATCH (n) RETURN n" none
        stDefault.config.db)] :=
  ⟨fun h => (C7_target_db_resolution "CREATE DATABASE x " (some "neo4j")
      "neo4j" behOk stDefault 5 6 (by decide) rfl rfl
      (fun _ _ _ => rfl)).1 (Or.inl h),
    fun h1 h2 => (C7_target_db_resolution "MATCH (n) RETURN n" none
      "neo4j" behOk stDefault 5 6 (by decide) rfl rfl
      (fun _ _ _ => rfl)).2.1 h1 h2,
    (C7_target_db_resolution "MATCH (n) RETURN n" none "neo4j" behOk
      stDefault 5 6 (by decide) rfl rfl (fun _ _ _ => rfl)).2.2⟩

/-- C9 counterexample: with every essential connection parameter missing
from the explicit arguments and no config file, `db_connect` silently
fills the essentials with the built-in defaults and creates a handle —
the resulting state is *online* with a live handle and nothing raised,
and against a server that accepts the default credentials a subsequent
query silently succeeds. -/
theorem C9_counterexample :
    Driver.connect_param_available cfgNoArgs = false ∧
    connectedNoArgs.offlineFlag = false ∧
    connectedNoArgs.driver = some 1 ∧
    dict_get connectedNoArgs.cfg "uri" = .vstr "neo4j://localhost:7687" ∧
    dict_get connectedNoArgs.cfg "user" = .vstr "neo4j" ∧
    dict_get connectedNoArgs.cfg "passwd" = .vstr "neo4j" ∧
    (Driver.query behOk stAfterDefaultConnect "MATCH (n) RETURN n"
        none none true false false none none none []).rows = some 5 ∧
    (Driver.query behOk stAfterDefaultConnect "MATCH (n) RETURN n"
        none none true false false none none none []).raised = none ∧
    (Driver.query behOk stAfterDefaultConnect "MATCH (n) RETURN n"
        none none true false false none none none []).state.offline =
      false := by
  decide

/-- C9 amended: when the essential triple is not fully available,
`db_connect` reads the config, fills what is still missing from the
built-in defaults, and then always constructs a (lazy) driver handle —
it neither raises a configuration error nor enters Offline mode by
itself, so whether a connection is silently established is decided only
by the server's reaction to the substituted credentials. -/
theorem C9_amended (opener : Value → Value × Value → Nat)
    (cfg : ConfDict) (conf : Option ConfDict)
    (hmiss : Driver.connect_param_available cfg = false) :
    (Driver.db_connect opener cfg conf false).offlineFlag = false ∧
    (Driver.db_connect opener cfg conf false).driver =
      some (opener (Driver.uri_prop (Driver.read_config cfg conf))
        (Driver.auth_prop (Driver.read_config cfg conf))) ∧
    (∀ k, k ∈ Driver.connect_essential → dict_get cfg k = .vnone →
      dict_get (Driver.db_connect opener cfg none false).cfg k =
        dict_get DEFAULT_CONFIG k) := by
  refine ⟨?_, ?_, ?_⟩
  · simp [Driver.db_connect, hmiss]
  · simp [Driver.db_connect, hmiss]
  · intro k _ hk
    simp only [Driver.db_connect, hmiss, Bool.not_false, if_true,
      Bool.false_eq_true, if_false]
    simp only [Driver.read_config]
    rw [config_from_defaults_get, if_pos hk]

/-- Witness for C9 amended on the all-missing constructor dict. -/
theorem C9_amended_witness :
    Driver.connect_param_available cfgNoArgs = false ∧
    (Driver.db_connect (fun _ _ => 1) cfgNoArgs none false).offlineFlag =
      false ∧
    (Driver.db_connect (fun _ _ => 1) cfgNoArgs none false).driver =
      some ((fun _ _ => 1)
        (Driver.uri_prop (Driver.read_config cfgNoArgs none))
        (Driver.auth_prop (Driver.read_config cfgNoArgs none))) ∧
    ("uri" ∈ Driver.connect_essential ∧
      dict_get cfgNoArgs "uri" = .vnone ∧
      dict_get (Driver.db_connect (fun _ _ => 1) cfgNoArgs none false).cfg
          "uri" = dict_get DEFAULT_CONFIG "uri") :=
  ⟨rfl,
    (C9_amended (fun _ _ => 1) cfgNoArgs none rfl).1,
    (C9_amended (fun _ _ => 1) cfgNoArgs none rfl).2.1,
    by decide, by decide,
    (C9_amended (fun _ _ => 1) cfgNoArgs none rfl).2.2 "uri"
      (by decide) (by decide)⟩

/-- Witness for C8 amended at a concrete offline state. -/
theorem C8_amended_witness :
    stOffline.offline = true ∧ stOffline.driver = none ∧
    Driver.idx_cstr_synonyms "indices" = some "INDEX" ∧
    (Driver.query behOk stOffline "SHOW DATABASES" none none
        true false false none none none [] =
      ⟨none, none, none, stOffline, []⟩ ∧
    Driver.drop_indices_run stOffline.driver "indices" 4 (.ok []) =
      .error "AttributeError" ∧
    Driver.list_indices_run stOffline.driver "indices" =
      .error "AttributeError") :=
  ⟨rfl, rfl, rfl,
    C8_amended behOk stOffline "SHOW DATABASES" none none true false false
      none none none [] "indices" "INDEX" 4 (.ok []) rfl rfl rfl⟩

end Neo4jUtils
